import Mathlib

set_option maxRecDepth 1000000

/-!
Verification of the Brion compartment report converter
(src/apps/compartmentConverter.cpp) against its specification.

The converter performs its arithmetic on simulation times and on the GID
partition in IEEE-754 single precision (C++ float).  We model binary32
values exactly: a float value is represented by the integer obtained by
scaling its exact rational value by 2^128 (all binary32 values of the
magnitudes handled by the converter are dyadic rationals, so this scaling
is exact), and each float operation is the exact operation followed by
rounding to the 24-bit-significand grid, round to nearest with ties to
even.  Exponents are unbounded above in the model and values below 2^-105
in magnitude flush to zero; every quantity the converter handles lies far
inside the range [2^-100, 2^127] where this model agrees with IEEE-754
bit for bit, and NaNs, infinities and subnormals never arise for the
values considered here.
-/

namespace Brion

/-- A binary32 value, represented as its exact rational value scaled by
2^128 (an integer, since the values are dyadic). -/
abbrev F32 := ℤ

/-- The scaling factor of the representation. -/
def SC : ℤ := 2 ^ 128

/-- The F32 representation of the dyadic rational m * 2^e. -/
def dyadic (m e : ℤ) : F32 := if 0 ≤ e + 128 then m * 2 ^ (e + 128).toNat else 0

/-- Normalize the fraction N/D into the binary32 significand window
[2^23, 2^24) by doubling N or D, tracking the shift k so that N/D equals
the original value times 2^k; fuel-bounded (the fuel of 1000 covers every
ratio between 2^-970 and 2^976). -/
def fscaleND : ℕ → ℕ → ℕ → ℤ → ℕ × ℕ × ℤ
  | 0, N, D, k => (N, D, k)
  | fuel + 1, N, D, k =>
    if N < 8388608 * D then fscaleND fuel (2 * N) D (k + 1)
    else if 16777216 * D ≤ N then fscaleND fuel N (2 * D) (k - 1)
    else (N, D, k)

/-- Round the exact rational a/b to the binary32 grid (round to nearest,
ties to even, 24-bit significand) and return it in the scaled-by-2^128
representation.  Values of magnitude below 2^-105 flush to zero; the
converter never produces such values. -/
def roundQz (a b : ℤ) : F32 :=
  if a = 0 ∨ b = 0 then 0
  else
    let s : ℤ := if (0 ≤ a ∧ 0 ≤ b) ∨ (a < 0 ∧ b < 0) then 1 else -1
    let p := fscaleND 1000 a.natAbs b.natAbs 0
    let q := p.1 / p.2.1
    let r := p.1 % p.2.1
    let n := if 2 * r < p.2.1 then q else if p.2.1 < 2 * r then q + 1
             else if q % 2 = 0 then q else q + 1
    let ee : ℤ := 128 - p.2.2
    if 0 ≤ ee then s * (n : ℤ) * 2 ^ ee.toNat else 0

/-- Binary32 addition: exact sum, then rounding. -/
def fadd (x y : F32) : F32 := roundQz (x + y) SC

/-- Binary32 subtraction: exact difference, then rounding. -/
def fsub (x y : F32) : F32 := roundQz (x - y) SC

/-- Binary32 multiplication: exact product, then rounding. -/
def fmul (x y : F32) : F32 := roundQz (x * y) (SC * SC)

/-- Binary32 division: exact quotient, then rounding. -/
def fdiv (x y : F32) : F32 := roundQz x y

/-- Conversion of an unsigned integer to binary32; rounds for values
above 2^24, exactly as C++ integer-to-float conversion does. -/
def f32ofNat (n : ℕ) : F32 := roundQz (n : ℤ) 1

/-- C++ std::min on two ordinary (non-NaN) float values. -/
def fmin (x y : F32) : F32 := if y < x then y else x

/-- C++ conversion of a nonnegative float value to size_t: truncation
toward zero. -/
def truncSizeT (x : F32) : ℕ := x.toNat / 2 ^ 128

/-- Comparison of two float values (ordinary values, no NaN). -/
def fltB (x y : F32) : Bool := decide (x < y)

/-! ## Partitioner (compartmentConverter.cpp lines 174-188)

    const float range = float( gids.size( )) / float( nRanks );
    const size_t startGID = rank * range;
    const size_t endGID = ( rank + 1 ) * range;
    size_t index = 0;
    BOOST_FOREACH( const uint32_t gid, gids )
    {
        if( index < startGID || index >= endGID )
            to.addGID( gid );
        else
            to.writeCompartments( gid, counts[ index ] );
        ++index;
    }
-/

/-- The float variable range = float(gids.size()) / float(nRanks). -/
def gidRange (G N : ℕ) : F32 := fdiv (f32ofNat G) (f32ofNat N)

/-- The size_t variable startGID = rank * range: int-to-float conversion
of the rank, binary32 multiply, float-to-size_t truncation. -/
def startGID (G N R : ℕ) : ℕ := truncSizeT (fmul (f32ofNat R) (gidRange G N))

/-- The size_t variable endGID = (rank + 1) * range. -/
def endGID (G N R : ℕ) : ℕ := truncSizeT (fmul (f32ofNat (R + 1)) (gidRange G N))

/-- The two branches of the layout loop body. -/
inductive GidAction
  | addGID
  | writeCompartments
deriving DecidableEq, Repr

/-- Branch taken by the layout loop for the gid at position i: addGID
when index < startGID or index >= endGID, writeCompartments otherwise. -/
def gidActionOf (G N R i : ℕ) : GidAction :=
  if i < startGID G N R ∨ endGID G N R ≤ i then .addGID else .writeCompartments

/-- The layout loop over the gid set, one action per gid index. -/
def partActions (G N R : ℕ) : List GidAction :=
  (List.range G).map (gidActionOf G N R)

/-- Rank R owns gid index i when the layout loop calls writeCompartments
for it. -/
def owns (G N R i : ℕ) : Prop := gidActionOf G N R i = .writeCompartments

instance (G N R i : ℕ) : Decidable (owns G N R i) := by
  unfold owns; infer_instance

/-- Helper: reading a list back off its index range reproduces the list. -/
theorem map_getD_range {α : Type} (l : List α) (d : α) :
    (List.range l.length).map (fun j => l.getD j d) = l := by
  apply List.ext_getElem
  · simp
  · intro i h1 h2
    simp only [List.getElem_map, List.getElem_range]
    exact List.getD_eq_getElem l d h2

/-- Helper: gathering c elements of v one by one from position o is the
same as the sub-range of v from o of length c, when it fits. -/
theorem map_getD_eq_take_drop (v : List ℤ) (o c : ℕ) (h : o + c ≤ v.length) :
    (List.range c).map (fun k => v.getD (o + k) 0) = (v.drop o).take c := by
  apply List.ext_getElem
  · simp; omega
  · intro i h1 h2
    simp only [List.getElem_map, List.getElem_range, List.getElem_take,
      List.getElem_drop]
    exact List.getD_eq_getElem v 0 (by simp at h1; omega)

/-- Claim C2 (amended): the set of gid indices for which the layout loop
calls writeCompartments is exactly the half-open interval
[startGID, endGID) of the float-computed bounds. -/
theorem partActions_writeCompartments_iff (G N R i : ℕ) (h : i < G) :
    (partActions G N R).getD i .addGID = GidAction.writeCompartments ↔
      startGID G N R ≤ i ∧ i < endGID G N R := by
  have hmem : (partActions G N R).getD i .addGID = gidActionOf G N R i := by
    unfold partActions
    rw [List.getD_eq_getElem _ _ (by simpa using h)]
    simp
  rw [hmem]
  unfold gidActionOf
  by_cases hc : i < startGID G N R ∨ endGID G N R ≤ i
  · simp only [hc, if_true]
    constructor
    · intro hab; cases hab
    · intro hab; omega
  · simp only [hc, if_false]
    constructor
    · intro _; omega
    · intro _; trivial

/-- Witness for the amended claim C2 at G = 3, N = 1, R = 0, i = 1. -/
theorem partActions_writeCompartments_iff_witness :
    1 < 3 ∧ ((partActions 3 1 0).getD 1 .addGID = GidAction.writeCompartments ↔
      startGID 3 1 0 ≤ 1 ∧ 1 < endGID 3 1 0) :=
  ⟨by decide, partActions_writeCompartments_iff 3 1 0 1 (by decide)⟩

/-- Claim C2 (counterexample): the claim as stated fails: for G = 13,
N = 11, R = 10 the floor-division range is [11, 13), so index 12 lies in
it, yet the float-computed loop bound endGID is 12 and the loop calls
addGID, not writeCompartments, for index 12. -/
theorem partition_not_floor_division :
    gidActionOf 13 11 10 12 = GidAction.addGID ∧
      10 * 13 / 11 ≤ 12 ∧ 12 < 11 * 13 / 11 := by decide

/-- Claim C3 (failing evaluation): for G = 13 gids and N = 11 ranks, no
rank at all owns gid index 12 (rank 10, the last rank, owns only
[11, 12) because of float rounding in the range computation), so the
ownership ranges do not partition [0, G): writeCompartments is never
called for the gid at index 12 and the layout of that gid is committed
by nobody. -/
theorem partition_misses_gid_index :
    (List.range 11).countP (fun R => decide (owns 13 11 R 12)) = 0 ∧ 12 < 13 := by
  decide

/-! ## Per-frame worker (compartmentConverter.cpp lines 269-290)

        const float t = start + frame * step;
        brion::floatsPtr data = in.loadFrame( t );
        const brion::floats& voltages = *data.get();
        const brion::SectionOffsets& offsets = in.getOffsets();
        size_t index = 0;
        BOOST_FOREACH( const uint32_t gid, gids )
        {
            brion::floats cellVoltages;
            cellVoltages.reserve( in.getNumCompartments( index ));
            for( size_t j = 0; j < offsets[index].size(); ++j )
                for( size_t k = 0; k < counts[index][j]; ++k )
                    cellVoltages.push_back( voltages[ offsets[index][j]+k] );
            to.writeFrame( gid, cellVoltages, t );
            ++index;
        }

Voltage values are opaque to this loop; we model them as F32 values.
-/

/-- The sentinel offset: maximum uint64, marking a section with no
compartments (brion/types.h line 97). -/
def sentinel : ℕ := 2 ^ 64 - 1

/-- The slice (cellVoltages) built by the double loop for one neuron. -/
def buildSlice (offsets counts : List ℕ) (voltages : List F32) : List F32 :=
  ((List.range offsets.length).map (fun j =>
    (List.range (counts.getD j 0)).map
      (fun k => voltages.getD (offsets.getD j 0 + k) 0))).flatten

/-- The voltage-array indices read by the double loop for one neuron. -/
def accessedIndices (offsets counts : List ℕ) : List ℕ :=
  ((List.range offsets.length).map (fun j =>
    (List.range (counts.getD j 0)).map (fun k => offsets.getD j 0 + k))).flatten

/-- The sequence of writeFrame calls issued by the per-frame loop: one
call for every gid, in gid order, with the slice built for it.  The loop
body contains no ownership test. -/
def processFrame (gids : List ℕ) (offsets counts : List (List ℕ))
    (voltages : List F32) : List (ℕ × List F32) :=
  (List.range gids.length).map (fun i =>
    (gids.getD i 0, buildSlice (offsets.getD i []) (counts.getD i []) voltages))

/-- Claim C1 (failing evaluation): with two gids 101 and 102 and world
size 2, rank 0 owns only gid index 0, yet the per-frame loop issues a
writeFrame call for gid 102 (index 1) as well: the loop writes every
gid, with no ownership test, contradicting the claim that non-owned
gids are skipped. -/
theorem frameLoop_writes_unowned_gid :
    (processFrame [101, 102] [[0], [1]] [[1], [1]] [5, 7]).map Prod.fst
        = [101, 102] ∧
      ¬ owns 2 2 0 1 := by decide

/-- Claim C8: under the layout invariants, the slice built by the double
loop equals the concatenation, over the sections j in order, of the
sub-ranges voltages[offsets[j] .. offsets[j]+counts[j]); its length is
the sum of the per-section counts; and sections with the sentinel offset
contribute the empty list. -/
theorem buildSlice_eq_join_subranges (offsets counts : List ℕ)
    (voltages : List F32) (frameSize : ℕ)
    (hlen : counts.length = offsets.length)
    (hv : voltages.length = frameSize)
    (hbound : ∀ j < offsets.length, offsets.getD j 0 ≠ sentinel →
      offsets.getD j 0 + counts.getD j 0 ≤ frameSize)
    (hsent : ∀ j < offsets.length, offsets.getD j 0 = sentinel →
      counts.getD j 0 = 0) :
    buildSlice offsets counts voltages =
      ((List.range offsets.length).map (fun j =>
        (voltages.drop (offsets.getD j 0)).take (counts.getD j 0))).flatten ∧
    (buildSlice offsets counts voltages).length = counts.sum ∧
    ∀ j < offsets.length, offsets.getD j 0 = sentinel →
      (voltages.drop (offsets.getD j 0)).take (counts.getD j 0) = [] := by
  refine ⟨?_, ?_, ?_⟩
  · unfold buildSlice
    refine congrArg List.flatten (List.map_congr_left ?_)
    intro j hj
    rw [List.mem_range] at hj
    by_cases hs : offsets.getD j 0 = sentinel
    · rw [hsent j hj hs]
      simp
    · exact map_getD_eq_take_drop voltages _ _ (by rw [hv]; exact hbound j hj hs)
  · unfold buildSlice
    rw [List.length_flatten]
    simp only [List.map_map]
    have : ((List.range offsets.length).map
        (List.length ∘ fun j => (List.range (counts.getD j 0)).map
          (fun k => voltages.getD (offsets.getD j 0 + k) 0))) =
        (List.range counts.length).map (fun j => counts.getD j 0) := by
      rw [hlen]
      refine List.map_congr_left ?_
      intro j hj
      simp
    rw [this, map_getD_range]
  · intro j hj hs
    rw [hsent j hj hs]
    simp

/-- Witness for claim C8 at a concrete three-section layout with a
sentinel section. -/
theorem buildSlice_eq_join_subranges_witness :
    ([2, 1, 0] : List ℕ).length = ([0, 2, sentinel] : List ℕ).length ∧
    ([10, 20, 30] : List F32).length = 3 ∧
    (buildSlice [0, 2, sentinel] [2, 1, 0] [10, 20, 30] =
      ((List.range ([0, 2, sentinel] : List ℕ).length).map (fun j =>
        (([10, 20, 30] : List F32).drop (([0, 2, sentinel] : List ℕ).getD j 0)).take
          (([2, 1, 0] : List ℕ).getD j 0))).flatten ∧
    (buildSlice [0, 2, sentinel] [2, 1, 0] [10, 20, 30]).length
        = ([2, 1, 0] : List ℕ).sum ∧
    ∀ j < ([0, 2, sentinel] : List ℕ).length,
      ([0, 2, sentinel] : List ℕ).getD j 0 = sentinel →
      (([10, 20, 30] : List F32).drop (([0, 2, sentinel] : List ℕ).getD j 0)).take
        (([2, 1, 0] : List ℕ).getD j 0) = []) :=
  ⟨by decide, by decide,
    buildSlice_eq_join_subranges [0, 2, sentinel] [2, 1, 0] [10, 20, 30] 3
      (by decide) (by decide) (by decide) (by decide)⟩

/-- Claim C10: under the layout invariants, every voltage-array index
read by the slice loop is strictly below frameSize, and a sentinel
offset is never used as an index: its inner loop runs zero times. -/
theorem accessedIndices_bounded (offsets counts : List ℕ) (frameSize : ℕ)
    (hbound : ∀ j < offsets.length, offsets.getD j 0 ≠ sentinel →
      offsets.getD j 0 + counts.getD j 0 ≤ frameSize)
    (hsent : ∀ j < offsets.length, offsets.getD j 0 = sentinel →
      counts.getD j 0 = 0) :
    (∀ a ∈ accessedIndices offsets counts, a < frameSize) ∧
    ∀ j < offsets.length, offsets.getD j 0 = sentinel →
      (List.range (counts.getD j 0)).map (fun k => offsets.getD j 0 + k) = [] := by
  constructor
  · intro a ha
    unfold accessedIndices at ha
    rw [List.mem_flatten] at ha
    obtain ⟨inner, hinner, hina⟩ := ha
    rw [List.mem_map] at hinner
    obtain ⟨j, hj, hjeq⟩ := hinner
    rw [List.mem_range] at hj
    subst hjeq
    rw [List.mem_map] at hina
    obtain ⟨k, hk, hkeq⟩ := hina
    rw [List.mem_range] at hk
    subst hkeq
    by_cases hs : offsets.getD j 0 = sentinel
    · have := hsent j hj hs
      omega
    · have := hbound j hj hs
      omega
  · intro j hj hs
    rw [hsent j hj hs]
    simp

/-- Witness for claim C10 at the same concrete layout. -/
theorem accessedIndices_bounded_witness :
    ((∀ a ∈ accessedIndices [0, 2, sentinel] [2, 1, 0], a < 3) ∧
    ∀ j < ([0, 2, sentinel] : List ℕ).length,
      ([0, 2, sentinel] : List ℕ).getD j 0 = sentinel →
      (List.range (([2, 1, 0] : List ℕ).getD j 0)).map
        (fun k => ([0, 2, sentinel] : List ℕ).getD j 0 + k) = []) :=
  accessedIndices_bounded [0, 2, sentinel] [2, 1, 0] 3 (by decide) (by decide)

/-! ## Frame dispatcher (compartmentConverter.cpp lines 191-311)

    const size_t nFrames = (end - start) / step;
    const int preQueue = std::max( 2, int( nFrames>>9 ) );
    const size_t startFrame = (nRanks-1) * preQueue;
    if( startFrame > nFrames )
    {
        std::cerr << "More MPI processes than work" << std::endl;
        return EXIT_FAILURE;
    }

Every rank, coordinator and workers alike, then runs the same loop
for( size_t i = startFrame; i < nFrames; ++i ): the coordinator
dispatches or executes one frame per iteration, and a worker receives
one FRAME message per iteration, breaking when the payload is negative.
-/

/-- Pre-queue depth: std::max(2, int(nFrames >> 9)). -/
def preQueue (nFrames : ℕ) : ℕ := max 2 (nFrames >>> 9)

/-- Starting frame of the steady-state loop: (nRanks - 1) * preQueue. -/
def startFrame (N nFrames : ℕ) : ℕ := (N - 1) * preQueue nFrames

/-- Outcome of a converter run, as far as the dispatcher decides it: the
exit status, whether the output was flushed (the writer contract makes
flushing the condition for the output file to be readable), and the
frames processed across the cluster. -/
structure RunOutcome where
  exitFailure : Bool
  flushed : Bool
  frames : List ℕ
deriving DecidableEq, Repr

/-- Frames processed by worker w of the cluster under a schedule in
which message delivery is slow (every MPI_Iprobe of the coordinator
reports no pending completion, a behaviour the message layer permits):
the worker's incoming FIFO stream is its preQueue frames
(w-1)*Q .. w*Q-1 followed by the terminate message, and its receive
loop body runs at most nFrames - startFrame times, one receive per
iteration. -/
def workerFrames (Q budget w : ℕ) : List ℕ :=
  (List.range' ((w - 1) * Q) Q).take budget

/-- All frames processed across the cluster under the slow-delivery
schedule: the coordinator executes [startFrame, nFrames) itself (its
Iprobe never sees a pending completion) and each worker processes what
fits in its receive budget.  With N = 1 this is exactly [0, nFrames)
and no messages exist. -/
def procFrames (N nFrames : ℕ) : List ℕ :=
  List.range' (startFrame N nFrames) (nFrames - startFrame N nFrames) ++
    ((List.range (N - 1)).map (fun k =>
      workerFrames (preQueue nFrames) (nFrames - startFrame N nFrames) (k + 1))).flatten

/-- The converter run as the dispatcher decides it: with more pre-queued
work than frames, every rank returns EXIT_FAILURE before the frame loop
and before flush (lines 196-202); otherwise the frames are processed
and the output flushed. -/
def converterRun (N nFrames : ℕ) : RunOutcome :=
  if startFrame N nFrames > nFrames then ⟨true, false, []⟩
  else ⟨false, true, procFrames N nFrames⟩

/-- Claim C7: Q equals max(2, nFrames / 512); when (N-1)*Q > nFrames the
run exits with a failure code before any frame is processed and without
flushing the output (so the output is not left in a readable state);
when (N-1)*Q <= nFrames the conversion proceeds. -/
theorem tooManyWorkers_guard (N nFrames : ℕ) (_h : 1 ≤ N) :
    preQueue nFrames = max 2 (nFrames / 512) ∧
    (nFrames < (N - 1) * preQueue nFrames →
      converterRun N nFrames = ⟨true, false, []⟩) ∧
    ((N - 1) * preQueue nFrames ≤ nFrames →
      (converterRun N nFrames).exitFailure = false ∧
      (converterRun N nFrames).flushed = true) := by
  refine ⟨?_, ?_, ?_⟩
  · unfold preQueue
    rw [Nat.shiftRight_eq_div_pow]
  · intro hgt
    have hs : startFrame N nFrames > nFrames := by unfold startFrame; omega
    unfold converterRun
    rw [if_pos hs]
  · intro hle
    have hs : ¬ startFrame N nFrames > nFrames := by unfold startFrame; omega
    unfold converterRun
    rw [if_neg hs]
    exact ⟨rfl, rfl⟩

/-- Witness for claim C7 at N = 16, nFrames = 4 (the spec's scenario 5:
Q = 2, S = 30 > 4). -/
theorem tooManyWorkers_guard_witness :
    1 ≤ 16 ∧
    (preQueue 4 = max 2 (4 / 512) ∧
    (4 < (16 - 1) * preQueue 4 →
      converterRun 16 4 = ⟨true, false, []⟩) ∧
    ((16 - 1) * preQueue 4 ≤ 4 →
      (converterRun 16 4).exitFailure = false ∧
      (converterRun 16 4).flushed = true)) :=
  ⟨by decide, tooManyWorkers_guard 16 4 (by decide)⟩

/-- Claim C5 (failing evaluation): with N = 2 ranks and nFrames = 3 the
claim's precondition (N-1)*Q <= nFrames holds (Q = 2, S = 2), yet frame
1 is processed zero times across the cluster: worker 1 has frames 0 and
1 pre-queued in order, but its receive loop runs only nFrames - S = 1
iterations, and the coordinator's own loop starts at frame 2. -/
theorem frame1_never_processed :
    (2 - 1) * preQueue 3 ≤ 3 ∧
    (converterRun 2 3).exitFailure = false ∧
    (converterRun 2 3).frames = [2, 0] ∧
    (converterRun 2 3).frames.count 1 = 0 := by decide

/-! ## Coordinator steady-state completion branch (lines 234-249)

    int data = 0;
    MPI_Status status;
    MPI_Iprobe( MPI_ANY_SOURCE, TAG_FRAME_DONE, MPI_COMM_WORLD,
                &data, &status );
    if( data )
    {
        MPI_Recv( &frame, 1, MPI_INT, MPI_ANY_SOURCE,
                  TAG_FRAME_DONE, MPI_COMM_WORLD, &status );
        MPI_Wait( &requests[frame], &status );
        requests.erase( frame );
        MPI_Isend( &i, 1, MPI_INT, status.MPI_SOURCE, TAG_FRAME,
                   MPI_COMM_WORLD, &requests[i] );
        ++progress;
        continue;
    }
-/

/-- The MPI_SOURCE field of an MPI_Status object. -/
structure MPIStatusT where
  source : ℤ
deriving DecidableEq, Repr

/-- MPI_Recv with MPI_ANY_SOURCE on TAG_FRAME_DONE: yields the payload
and a status whose MPI_SOURCE is the actual sender of the message. -/
def mpiRecvDone (sender payload : ℤ) : ℤ × MPIStatusT := (payload, ⟨sender⟩)

/-- MPI_Wait on a send request overwrites the status argument, and the
MPI standard leaves the MPI_SOURCE of a completed send undefined; u
models whatever value the implementation wrote there. -/
def mpiWaitSend (u : ℤ) : MPIStatusT := ⟨u⟩

/-- One execution of the coordinator's pending-completion branch for
the completion DONE(f) from the given sender, with nextFrame the frame
index i to hand out.  requests is the outstanding-send key list; u is
the MPI_SOURCE left by the MPI_Wait on the completed send.  Returns the
new request key list, the MPI_Isend destination, and the MPI_Isend
payload. -/
def coordCompletionBranch (requests : List ℤ) (sender f u nextFrame : ℤ) :
    List ℤ × ℤ × ℤ :=
  let rp := mpiRecvDone sender f
  let afterWait := mpiWaitSend u
  (nextFrame :: requests.erase rp.1, afterWait.source, nextFrame)

/-- Claim C4 (failing evaluation): the completion DONE(0) from rank 1
is received while send handles for frames 0 and 1 are outstanding and
frame 2 is next.  The branch does release the handle matching frame 0,
but it sends FRAME(2) to rank 99 - the undefined MPI_SOURCE that
MPI_Wait on the completed send left in status - and not to rank 1, the
sender of the completion. -/
theorem dispatch_dest_not_completion_source :
    coordCompletionBranch [0, 1] 1 0 99 2 = ([2, 1], 99, 2) ∧ (99 : ℤ) ≠ 1 := by
  decide

/-! ## maxFrames clamping (lines 124-125, 156-160, 191)

    const size_t maxFrames = vm.count( "maxFrames" ) == 1 ?
        vm["maxFrames"].as< size_t >() : std::numeric_limits< size_t >::max();
    ...
    const float start = in.getStartTime();
    const float step = in.getTimestep();
    float end = in.getEndTime();
    const float maxEnd = start + maxFrames * step;
    end = std::min( end, maxEnd );
    ...
    const size_t nFrames = (end - start) / step;
-/

/-- SIZE_MAX, the value of maxFrames when --maxFrames is absent. -/
def SIZE_MAX : ℕ := 2 ^ 64 - 1

/-- end = std::min(end, start + maxFrames * step): maxFrames converts
to float, multiplies step in binary32, adds start in binary32. -/
def clampedEnd (start endT step : F32) (maxFrames : ℕ) : F32 :=
  fmin endT (fadd start (fmul (f32ofNat maxFrames) step))

/-- const size_t nFrames = (end - start) / step: binary32 subtraction
and division, then float-to-size_t truncation. -/
def nFramesOf (start endT step : F32) : ℕ :=
  truncSizeT (fdiv (fsub endT start) step)

/-- The end time and frame count the converter derives from the report
header and the optional --maxFrames argument. -/
def converterSetup (start endT step : F32) (m : Option ℕ) : F32 × ℕ :=
  let e := clampedEnd start endT step (m.getD SIZE_MAX)
  (e, nFramesOf start e step)

/-- Claim C6 (counterexample): for start = 0, end = 70, step = 0.7f
(the binary32 value 11744051 * 2^-24) and --maxFrames 99, the converter
produces 98 frames, but min(floor((end-start)/step), 99) = 99 whether
the quotient is floored over the exact real values (70/step = 100.0000017,
floor 100) or computed by the converter's own unclamped float pipeline
(also 100). -/
theorem maxFrames_count_not_min :
    fdiv (f32ofNat 7) (f32ofNat 10) = dyadic 11744051 (-24) ∧
    (converterSetup (f32ofNat 0) (f32ofNat 70) (dyadic 11744051 (-24))
        (some 99)).2 = 98 ∧
    min (nFramesOf (f32ofNat 0) (f32ofNat 70) (dyadic 11744051 (-24))) 99 = 99 ∧
    min (70 * 2 ^ 24 / 11744051) 99 = 99 := by decide

/-- Claim C6 (amended): with --maxFrames m, the output end time is
min(end, start + m * step) computed in binary32 and the frame count is
the float pipeline (end' - start) / step truncated to size_t; with
--maxFrames absent, maxFrames is SIZE_MAX and, whenever the input end
does not exceed start + SIZE_MAX * step (every practical report), the
end time and the frame count are unchanged. -/
theorem converterSetup_spec (start endT step : F32) (m : ℕ)
    (habs : endT ≤ fadd start (fmul (f32ofNat SIZE_MAX) step)) :
    converterSetup start endT step (some m) =
      (fmin endT (fadd start (fmul (f32ofNat m) step)),
        truncSizeT (fdiv (fsub (fmin endT (fadd start (fmul (f32ofNat m) step)))
          start) step)) ∧
    converterSetup start endT step none = (endT, nFramesOf start endT step) := by
  constructor
  · rfl
  · have he : clampedEnd start endT step SIZE_MAX = endT := by
      unfold clampedEnd fmin
      exact if_neg (not_lt.mpr habs)
    show (clampedEnd start endT step SIZE_MAX,
        nFramesOf start (clampedEnd start endT step SIZE_MAX) step)
      = (endT, nFramesOf start endT step)
    rw [he]

/-- Witness for the amended claim C6 at start = 0, end = 1, step = 1,
m = 1. -/
theorem converterSetup_spec_witness :
    (f32ofNat 1 ≤ fadd (f32ofNat 0) (fmul (f32ofNat SIZE_MAX) (f32ofNat 1))) ∧
    (converterSetup (f32ofNat 0) (f32ofNat 1) (f32ofNat 1) (some 1) =
      (fmin (f32ofNat 1) (fadd (f32ofNat 0) (fmul (f32ofNat 1) (f32ofNat 1))),
        truncSizeT (fdiv (fsub (fmin (f32ofNat 1)
          (fadd (f32ofNat 0) (fmul (f32ofNat 1) (f32ofNat 1)))) (f32ofNat 0))
          (f32ofNat 1))) ∧
    converterSetup (f32ofNat 0) (f32ofNat 1) (f32ofNat 1) none =
      (f32ofNat 1, nFramesOf (f32ofNat 0) (f32ofNat 1) (f32ofNat 1))) :=
  ⟨by decide, converterSetup_spec (f32ofNat 0) (f32ofNat 1) (f32ofNat 1) 1 (by decide)⟩

/-! ## Verifier, --compare pass (lines 348-392)

    for( float t = start; t < end; t += step )
    {
        brion::floatsPtr frame1 = in.loadFrame( t );
        brion::floatsPtr frame2 = result.loadFrame( t );
        REQUIRE( frame1 );
        REQUIRE( frame2 );
        for( size_t i = 0; i < in.getFrameSize(); ++i )
            REQUIRE_EQUAL( (*frame1)[i], (*frame2)[i] );
    }

REQUIRE and REQUIRE_EQUAL call ::exit( EXIT_FAILURE ) when the check
fails; a false result of the model below is that nonzero exit.
-/

/-- The verification loop's timestamp sequence: t starts at start and
accumulates t += step in binary32, while t < end; fuel-bounded. -/
def verifyTimes : ℕ → F32 → F32 → F32 → List F32
  | 0, _, _, _ => []
  | fuel + 1, t, endT, step =>
    if t < endT then t :: verifyTimes fuel (fadd t step) endT step else []

/-- One timestamp check of the --compare pass: REQUIRE(frame1),
REQUIRE(frame2), then REQUIRE_EQUAL on each of the first frameSize
voltages, with exact float equality. -/
def checkFrames (f1 f2 : Option (List F32)) (frameSize : ℕ) : Bool :=
  match f1, f2 with
  | some v1, some v2 =>
    (List.range frameSize).all (fun i => decide (v1.getD i 0 = v2.getD i 0))
  | _, _ => false

/-- The --compare pass over the verification timestamps: true exactly
when every per-timestamp check passes; the first failing check exits
the process with EXIT_FAILURE. -/
def compareReports (times : List F32) (load1 load2 : F32 → Option (List F32))
    (frameSize : ℕ) : Bool :=
  times.all (fun t => checkFrames (load1 t) (load2 t) frameSize)

/-- Helper: a single check passes exactly when both loads return a
frame and the first frameSize voltages agree exactly. -/
theorem checkFrames_eq_true_iff (f1 f2 : Option (List F32)) (fs : ℕ) :
    checkFrames f1 f2 fs = true ↔
      ∃ v1 v2, f1 = some v1 ∧ f2 = some v2 ∧
        ∀ i < fs, v1.getD i 0 = v2.getD i 0 := by
  cases f1 with
  | none => simp [checkFrames]
  | some v1 =>
    cases f2 with
    | none => simp [checkFrames]
    | some v2 =>
      simp only [checkFrames, List.all_eq_true, List.mem_range,
        decide_eq_true_eq, Option.some.injEq]
      constructor
      · intro hall
        exact ⟨v1, v2, rfl, rfl, fun i hi => hall i hi⟩
      · rintro ⟨w1, w2, h1, h2, hall⟩
        subst h1; subst h2
        exact fun i hi => hall i hi

/-- Claim C9: the --compare pass succeeds exactly when, for every
timestamp t reached by stepping from start by step while t < end,
loadFrame(t) returns a frame in both the input and the re-opened
output and all frameSize voltages agree under exact float equality;
any failed check makes the pass fail, which exits the process with a
nonzero code. -/
theorem compare_pass_iff (fuel : ℕ) (start endT step : F32)
    (load1 load2 : F32 → Option (List F32)) (frameSize : ℕ) :
    compareReports (verifyTimes fuel start endT step) load1 load2 frameSize
        = true ↔
      ∀ t ∈ verifyTimes fuel start endT step,
        ∃ v1 v2, load1 t = some v1 ∧ load2 t = some v2 ∧
          ∀ i < frameSize, v1.getD i 0 = v2.getD i 0 := by
  unfold compareReports
  rw [List.all_eq_true]
  constructor
  · intro hall t ht
    exact (checkFrames_eq_true_iff _ _ _).mp (hall t ht)
  · intro hall t ht
    exact (checkFrames_eq_true_iff _ _ _).mpr (hall t ht)

end Brion
